import Mathlib

/-!
Shallow embedding of the pySMARTS wrapper (file pySMARTS/smarts.py).

The embedding covers:
- the material resolver, function underscore-material-to-code at lines 22-99,
  as an association list plus a lookup function returning the same three
  possible outcomes as the Python code (key list, code string, or a None
  return after printing a diagnostic);
- the card encoder inside function underscore-smartsAll at lines 2399-2634,
  as a pure function from a configuration record to the list of lines written
  to the input file smarts295.inp.txt, the list of lines printed to stdout,
  and a flag recording whether a Python exception escaped the encoder
  (the only such exception reachable from string inputs is the ValueError
  raised by float applied to IPRT on line 2570);
- the surrounding call protocol of underscore-smartsAll at lines 2370-2676
  (SMARTSPATH directory change, executable lookup, output read, cleanup,
  directory restore), as a function over an abstract environment recording
  the SMARTSPATH setting, the starting working directory, which candidate
  executables exist, and whether the read of smarts295.ext.txt succeeds.

Python strings are modelled by String, Python None-or-string values by
Option String, and the Python truthiness test on strings (used by the
material resolver and by the directory restore) is modelled explicitly.
-/

/-! ### Models of the Python string primitives used by smarts.py -/

/-- A single-quote character as a one-character string. -/
def sQuote : String := String.singleton ('\'')

/-- Model of the Python expression quote + s + quote used on Cards 1, 3a
and 8 of the encoder (source lines 2408, 2436, 2501). -/
def pyQuote (s : String) : String := sQuote ++ s ++ sQuote

/-- Model of the Python call CMNT.replace on a single space, replacing every
space character with an underscore (source line 2407). -/
def pyReplaceSpace (s : String) : String :=
  String.mk (s.data.map (fun c => if c = (' ') then ('_') else c))

/-- Model of the Python slice s[0:n], the first n characters of s
(source line 2405 uses n = 61). -/
def pyTake (n : Nat) (s : String) : String := String.mk (s.data.take n)

/-- Worker for pySplit: splits a character list at whitespace runs,
dropping empty pieces, with an accumulator for the current word. -/
def pySplitGo : List Char → List Char → List (List Char)
  | [], acc => if acc.isEmpty then [] else [acc.reverse]
  | c :: cs, acc =>
    if c.isWhitespace then
      if acc.isEmpty then pySplitGo cs [] else acc.reverse :: pySplitGo cs []
    else pySplitGo cs (c :: acc)

/-- Model of the Python call s.split with no argument: split at runs of
whitespace and drop empty pieces (source line 2401 applies it to IOUT). -/
def pySplit (s : String) : List String :=
  (pySplitGo s.data []).map (fun l => String.mk l)

/-- Value of a plain Python decimal literal: sign, integer part, fraction
numerator and the number of fraction digits.  The represented number is
plus or minus (ip + fnum divided by ten to the fpow). -/
structure PyDecimal where
  neg : Bool
  ip : Nat
  fnum : Nat
  fpow : Nat
deriving DecidableEq, Repr

/-- Numeric value of a digit list, most significant digit first. -/
def digitsToNat (cs : List Char) : Nat :=
  cs.foldl (fun a c => 10 * a + (c.toNat - 48)) 0

/-- Worker for pyFloat on the character list of the argument. -/
def pyFloatCore (cs : List Char) : Option PyDecimal :=
  let (sgn, rest) :=
    match cs with
    | ('-') :: t => (true, t)
    | ('+') :: t => (false, t)
    | t => (false, t)
  let ipds := rest.takeWhile (fun c => c ≠ ('.'))
  match rest.dropWhile (fun c => c ≠ ('.')) with
  | [] =>
    if !ipds.isEmpty && ipds.all Char.isDigit then
      some { neg := sgn, ip := digitsToNat ipds, fnum := 0, fpow := 0 }
    else none
  | ('.') :: fpds =>
    if !(ipds.isEmpty && fpds.isEmpty) && ipds.all Char.isDigit && fpds.all Char.isDigit then
      some { neg := sgn, ip := digitsToNat ipds, fnum := digitsToNat fpds, fpow := fpds.length }
    else none
  | _ => none

/-- Model of the Python builtin float on a string argument, restricted to
plain decimal literals: an optional sign, decimal digits, and an optional
single decimal point with digit run on at least one side.  Any other string
makes float raise ValueError, modelled by none.  The encoder applies it
only to IPRT (source lines 2570 and 2574). -/
def pyFloat (s : String) : Option PyDecimal := pyFloatCore s.data

/-- The comparison float-value greater than or equal to one, for the parsed
decimal (used for the IPRT test on source line 2570).  The fraction part is
always strictly below one, so the value is at least one exactly when the
number is non-negative with integer part at least one. -/
def pyDecGe1 (d : PyDecimal) : Bool := !d.neg && 1 ≤ d.ip

/-- The comparison float-value equal to the natural number n, n positive,
for the parsed decimal (used for the IPRT tests on source line 2574). -/
def pyDecEqNat (d : PyDecimal) (n : Nat) : Bool := !d.neg && d.ip = n && d.fnum = 0

/-! ### The material resolver (source lines 22-99) -/

/-- The material table of underscore-material-to-code (source lines 25-92),
in source order: documented material name paired with its numeric code
string. -/
def materialMap : List (String × String) :=
  [("UsrLamb", "0"), ("UsrNLamb", "1"), ("Water", "2"), ("Snow", "3"),
   ("Neve", "4"), ("Basalt", "5"), ("Dry_sand", "6"), ("WiteSand", "7"),
   ("Soil", "8"), ("Dry_clay", "9"), ("Wet_clay", "10"), ("Alfalfa", "11"),
   ("Grass", "12"), ("RyeGrass", "13"), ("Meadow1", "14"), ("Meadow2", "15"),
   ("Wheat", "16"), ("PineTree", "17"), ("Concrete", "18"), ("BlckLoam", "19"),
   ("BrwnLoam", "20"), ("BrwnSand", "21"), ("Conifers", "22"), ("DarkLoam", "23"),
   ("DarkSand", "24"), ("Decidous", "25"), ("DryGrass", "26"), ("DuneSand", "27"),
   ("FineSnow", "28"), ("GrnGrass", "29"), ("GrnlSnow", "30"), ("LiteClay", "31"),
   ("LiteLoam", "32"), ("LiteSand", "33"), ("PaleLoam", "34"), ("Seawater", "35"),
   ("SolidIce", "36"), ("Dry_Soil", "37"), ("LiteSoil", "38"), ("RConcrte", "39"),
   ("RoofTile", "40"), ("RedBrick", "41"), ("Asphalt", "42"), ("TallCorn", "43"),
   ("SndGravl", "44"), ("Fallow", "45"), ("Birch", "46"), ("WetSoil", "47"),
   ("Gravel", "48"), ("WetClay2", "49"), ("WetSilt", "50"), ("LngGrass", "51"),
   ("LwnGrass", "52"), ("OakTree", "53"), ("Pinion", "54"), ("MeltSnow", "55"),
   ("Plywood", "56"), ("WiteVinl", "57"), ("FibrGlss", "58"), ("ShtMetal", "59"),
   ("Wetland", "60"), ("SageBrsh", "61"), ("FirTrees", "62"), ("CSeaWatr", "63"),
   ("OSeaWatr", "64"), ("GrazingField", "65"), ("Spruce", "66")]

/-- The key view of the material table, in insertion order, as returned by
the Python expression material-map dot keys (source line 95). -/
def materialKeys : List String := materialMap.map Prod.fst

/-- The three possible outcomes of underscore-material-to-code: the list of
valid names, a code string, or the None return taken after printing the
unknown-material diagnostic. -/
inductive MatRet where
  | names (l : List String)
  | code (c : String)
  | noneRet
deriving DecidableEq, Repr

/-- Model of underscore-material-to-code (source lines 94-99).  The input is
the Python argument, either None or a string; the result pairs the returned
value with the lines printed to stdout.  The Python test if-not-material is
true for None and for the empty string, and both take the keys branch; a
missing key prints the diagnostic and returns None; otherwise the lookup
value is returned. -/
def materialToCode : Option String → MatRet × List String
  | none => (MatRet.names materialKeys, [])
  | some m =>
    if m = "" then (MatRet.names materialKeys, [])
    else
      match materialMap.lookup m with
      | none => (MatRet.noneRet, ["Unknown material specified: " ++ sQuote ++ m ++ sQuote])
      | some c => (MatRet.code c, [])

/-! ### The configuration record of underscore-smartsAll

One String field per parameter of underscore-smartsAll (source line 2355),
in the order of the parameter list. -/

structure Config where
  CMNT : String
  ISPR : String
  SPR : String
  ALTIT : String
  HEIGHT : String
  LATIT : String
  IATMOS : String
  ATMOS : String
  RH : String
  TAIR : String
  SEASON : String
  TDAY : String
  IH2O : String
  W : String
  IO3 : String
  IALT : String
  AbO3 : String
  IGAS : String
  ILOAD : String
  ApCH2O : String
  ApCH4 : String
  ApCO : String
  ApHNO2 : String
  ApHNO3 : String
  ApNO : String
  ApNO2 : String
  ApNO3 : String
  ApO3 : String
  ApSO2 : String
  qCO2 : String
  ISPCTR : String
  AEROS : String
  ALPHA1 : String
  ALPHA2 : String
  OMEGL : String
  GG : String
  ITURB : String
  TAU5 : String
  BETA : String
  BCHUEP : String
  RANGE : String
  VISI : String
  TAU550 : String
  IALBDX : String
  RHOX : String
  ITILT : String
  IALBDG : String
  TILT : String
  WAZIM : String
  RHOG : String
  WLMN : String
  WLMX : String
  SUNCOR : String
  SOLARC : String
  IPRT : String
  WPMN : String
  WPMX : String
  INTVL : String
  IOUT : String
  ICIRC : String
  SLOPE : String
  APERT : String
  LIMIT : String
  ISCAN : String
  IFILT : String
  WV1 : String
  WV2 : String
  STEP : String
  FWHM : String
  ILLUM : String
  IUV : String
  IMASS : String
  ZENITH : String
  AZIM : String
  ELEV : String
  AMASS : String
  YEAR : String
  MONTH : String
  DAY : String
  HOUR : String
  LONGIT : String
  ZONE : String
  DSTEP : String

/-! ### The card encoder (source lines 2399-2634)

One definition per card or sub-card.  Functions named cardNLines give the
lines written to the input file by an unconditional card; functions named
cardNFile give the (possibly empty) list of file lines of a conditional
sub-card; functions named cardNOut give the lines a card prints to stdout. -/

/-- Card 1 (source lines 2403-2409): the comment, truncated to its first 61
characters when longer than 62, spaces replaced by underscores, wrapped in
single quotes. -/
def card1Lines (cfg : Config) : List String :=
  let c1 := if 62 < cfg.CMNT.length then pyTake 61 cfg.CMNT else cfg.CMNT
  [pyQuote (pyReplaceSpace c1)]

/-- Card 2 (source line 2412): the ISPR option code. -/
def card2Lines (cfg : Config) : List String := [cfg.ISPR]

/-- Card 2a file lines (source lines 2415-2423): pressure fields selected by
ISPR; an out-of-domain ISPR writes nothing. -/
def card2aFile (cfg : Config) : List String :=
  if cfg.ISPR = "0" then [cfg.SPR]
  else if cfg.ISPR = "1" then [cfg.SPR ++ " " ++ cfg.ALTIT ++ " " ++ cfg.HEIGHT]
  else if cfg.ISPR = "2" then [cfg.LATIT ++ " " ++ cfg.ALTIT ++ " " ++ cfg.HEIGHT]
  else []

/-- Card 2a stdout lines (source line 2425): the diagnostic printed when
ISPR is out of domain; the print call joins its two arguments with a space,
so the line carries two spaces before the ISPR value. -/
def card2aOut (cfg : Config) : List String :=
  if cfg.ISPR = "0" then []
  else if cfg.ISPR = "1" then []
  else if cfg.ISPR = "2" then []
  else ["ISPR Error. ISPR should be 0, 1 or 2. Currently ISPR =  " ++ cfg.ISPR]

/-- Card 3 (source line 2428): the IATMOS option code. -/
def card3Lines (cfg : Config) : List String := [cfg.IATMOS]

/-- Card 3a (source lines 2431-2437): realistic-atmosphere fields for
IATMOS zero, quoted reference atmosphere name for IATMOS one, nothing
otherwise. -/
def card3aFile (cfg : Config) : List String :=
  if cfg.IATMOS = "0" then [cfg.TAIR ++ " " ++ cfg.RH ++ " " ++ cfg.SEASON ++ " " ++ cfg.TDAY]
  else if cfg.IATMOS = "1" then [pyQuote cfg.ATMOS]
  else []

/-- Card 4 (source line 2440): the IH2O option code. -/
def card4Lines (cfg : Config) : List String := [cfg.IH2O]

/-- Card 4a (source lines 2443-2449): precipitable water for IH2O zero,
skipped otherwise. -/
def card4aFile (cfg : Config) : List String :=
  if cfg.IH2O = "0" then [cfg.W] else []

/-- Card 5 (source line 2452): the IO3 option code. -/
def card5Lines (cfg : Config) : List String := [cfg.IO3]

/-- Card 5a (source lines 2455-2462): ozone fields for IO3 zero, skipped
otherwise. -/
def card5aFile (cfg : Config) : List String :=
  if cfg.IO3 = "0" then [cfg.IALT ++ " " ++ cfg.AbO3] else []

/-- Card 6 (source line 2465): the IGAS option code. -/
def card6Lines (cfg : Config) : List String := [cfg.IGAS]

/-- Cards 6a and 6b file lines (source lines 2468-2486): for IGAS zero the
ILOAD line, followed for ILOAD zero by the ten pollutant concentrations on
one line whose format string carries a trailing space.  For any other IGAS
nothing is written to the file. -/
def card6aFile (cfg : Config) : List String :=
  if cfg.IGAS = "0" then
    [cfg.ILOAD] ++
      (if cfg.ILOAD = "0" then
        [cfg.ApCH2O ++ " " ++ cfg.ApCH4 ++ " " ++ cfg.ApCO ++ " " ++ cfg.ApHNO2 ++ " " ++
         cfg.ApHNO3 ++ " " ++ cfg.ApNO ++ " " ++ cfg.ApNO2 ++ " " ++ cfg.ApNO3 ++ " " ++
         cfg.ApO3 ++ " " ++ cfg.ApSO2 ++ " "]
      else [])
  else []

/-- Card 6a stdout lines (source line 2492): for IGAS one the code prints an
empty line to stdout, not to the file. -/
def card6aOut (cfg : Config) : List String :=
  if cfg.IGAS = "0" then []
  else if cfg.IGAS = "1" then [""]
  else []

/-- Card 7 (source line 2495): the CO2 concentration. -/
def card7Lines (cfg : Config) : List String := [cfg.qCO2]

/-- Card 7a (source line 2498): the extraterrestrial spectrum option. -/
def card7aLines (cfg : Config) : List String := [cfg.ISPCTR]

/-- Card 8 (source lines 2501-2503): the aerosol model name wrapped in
single quotes. -/
def card8Lines (cfg : Config) : List String := [pyQuote cfg.AEROS]

/-- Card 8a (source lines 2506-2510): the user aerosol fields, written
exactly when the quoted AEROS equals the quoted literal USER (the source
rebinds AEROS to its quoted form before the comparison). -/
def card8aFile (cfg : Config) : List String :=
  if pyQuote cfg.AEROS = pyQuote ("USER") then
    [cfg.ALPHA1 ++ " " ++ cfg.ALPHA2 ++ " " ++ cfg.OMEGL ++ " " ++ cfg.GG]
  else []

/-- Card 9 (source line 2513): the ITURB option code. -/
def card9Lines (cfg : Config) : List String := [cfg.ITURB]

/-- Card 9a file lines (source lines 2516-2533): the turbidity value
selected by ITURB; an out-of-domain ITURB writes nothing. -/
def card9aFile (cfg : Config) : List String :=
  if cfg.ITURB = "0" then [cfg.TAU5]
  else if cfg.ITURB = "1" then [cfg.BETA]
  else if cfg.ITURB = "2" then [cfg.BCHUEP]
  else if cfg.ITURB = "3" then [cfg.RANGE]
  else if cfg.ITURB = "4" then [cfg.VISI]
  else if cfg.ITURB = "5" then [cfg.TAU550]
  else []

/-- Card 9a stdout lines (source line 2535): the diagnostic printed when
ITURB is out of domain, with two spaces before the ITURB value as on
Card 2a. -/
def card9aOut (cfg : Config) : List String :=
  if cfg.ITURB = "0" then []
  else if cfg.ITURB = "1" then []
  else if cfg.ITURB = "2" then []
  else if cfg.ITURB = "3" then []
  else if cfg.ITURB = "4" then []
  else if cfg.ITURB = "5" then []
  else ["Error: Card 9 needs to be input. Assign a valid value to ITURB =  " ++ cfg.ITURB]

/-- Card 10 (source line 2538): the zonal albedo selection IALBDX. -/
def card10Lines (cfg : Config) : List String := [cfg.IALBDX]

/-- Card 10a (source lines 2541-2545): the fixed broadband albedo RHOX,
written exactly when IALBDX is the sentinel minus one. -/
def card10aFile (cfg : Config) : List String :=
  if cfg.IALBDX = "-1" then [cfg.RHOX] else []

/-- Card 10b (source line 2548): the tilt flag ITILT. -/
def card10bLines (cfg : Config) : List String := [cfg.ITILT]

/-- Cards 10c and 10d (source lines 2551-2560): for ITILT one the tilt
fields, followed by the foreground albedo RHOG exactly when IALBDG is the
sentinel minus one; for any other ITILT nothing. -/
def card10cdFile (cfg : Config) : List String :=
  if cfg.ITILT = "1" then
    [cfg.IALBDG ++ " " ++ cfg.TILT ++ " " ++ cfg.WAZIM] ++
      (if cfg.IALBDG = "-1" then [cfg.RHOG] else [])
  else []

/-- Card 11 (source line 2564): the spectral range fields. -/
def card11Lines (cfg : Config) : List String :=
  [cfg.WLMN ++ " " ++ cfg.WLMX ++ " " ++ cfg.SUNCOR ++ " " ++ cfg.SOLARC]

/-- Card 12 (source line 2567): the IPRT option code. -/
def card12Lines (cfg : Config) : List String := [cfg.IPRT]

/-- Cards 12a, 12b and 12c (source lines 2570-2582), evaluated after float
of IPRT succeeded with value d: for value at least one the output spectral
range line, and for value two or three also the count IOTOT of requested
output variables (the length of IOUT split at whitespace, source line 2401)
and the IOUT line itself. -/
def card12aFile (cfg : Config) (d : PyDecimal) : List String :=
  if pyDecGe1 d then
    [cfg.WPMN ++ " " ++ cfg.WPMX ++ " " ++ cfg.INTVL] ++
      (if pyDecEqNat d 2 || pyDecEqNat d 3 then
        [toString (pySplit cfg.IOUT).length, cfg.IOUT]
      else [])
  else []

/-- Card 13 (source line 2585): the ICIRC option code. -/
def card13Lines (cfg : Config) : List String := [cfg.ICIRC]

/-- Card 13a (source lines 2588-2593): the radiometer fields, written
exactly when ICIRC is one. -/
def card13aFile (cfg : Config) : List String :=
  if cfg.ICIRC = "1" then [cfg.SLOPE ++ " " ++ cfg.APERT ++ " " ++ cfg.LIMIT] else []

/-- Card 14 (source line 2597): the ISCAN option code. -/
def card14Lines (cfg : Config) : List String := [cfg.ISCAN]

/-- Card 14a (source lines 2600-2604): the smoothing filter fields, written
exactly when ISCAN is one. -/
def card14aFile (cfg : Config) : List String :=
  if cfg.ISCAN = "1" then
    [cfg.IFILT ++ " " ++ cfg.WV1 ++ " " ++ cfg.WV2 ++ " " ++ cfg.STEP ++ " " ++ cfg.FWHM]
  else []

/-- Card 15 (source line 2607): the ILLUM option code. -/
def card15Lines (cfg : Config) : List String := [cfg.ILLUM]

/-- Card 16 (source line 2610): the IUV option code. -/
def card16Lines (cfg : Config) : List String := [cfg.IUV]

/-- Card 17 (source line 2613): the IMASS option code. -/
def card17Lines (cfg : Config) : List String := [cfg.IMASS]

/-- Card 17a (source lines 2616-2630): the solar position fields selected by
IMASS; for IMASS three the seven fields year, month, day, hour, latitude,
longitude and zone joined by single spaces; for IMASS four the format
string joins with comma-space; an out-of-domain IMASS writes nothing. -/
def card17aFile (cfg : Config) : List String :=
  if cfg.IMASS = "0" then [cfg.ZENITH ++ " " ++ cfg.AZIM]
  else if cfg.IMASS = "1" then [cfg.ELEV ++ " " ++ cfg.AZIM]
  else if cfg.IMASS = "2" then [cfg.AMASS]
  else if cfg.IMASS = "3" then
    [cfg.YEAR ++ " " ++ cfg.MONTH ++ " " ++ cfg.DAY ++ " " ++ cfg.HOUR ++ " " ++
     cfg.LATIT ++ " " ++ cfg.LONGIT ++ " " ++ cfg.ZONE]
  else if cfg.IMASS = "4" then [cfg.MONTH ++ ", " ++ cfg.LATIT ++ ", " ++ cfg.DSTEP]
  else []

/-- Result of running the encoder: the lines written to smarts295.inp.txt,
the lines printed to stdout, and whether a Python exception escaped (true
exactly when float of IPRT raised ValueError on source line 2570). -/
structure EncodeResult where
  lines : List String
  stdout : List String
  raised : Bool
deriving DecidableEq, Repr

/-- File lines of Cards 1 through 12, written before the float of IPRT on
source line 2570 is evaluated. -/
def preLines (cfg : Config) : List String :=
  card1Lines cfg ++ card2Lines cfg ++ card2aFile cfg ++ card3Lines cfg ++ card3aFile cfg ++
  card4Lines cfg ++ card4aFile cfg ++ card5Lines cfg ++ card5aFile cfg ++ card6Lines cfg ++
  card6aFile cfg ++ card7Lines cfg ++ card7aLines cfg ++ card8Lines cfg ++ card8aFile cfg ++
  card9Lines cfg ++ card9aFile cfg ++ card10Lines cfg ++ card10aFile cfg ++ card10bLines cfg ++
  card10cdFile cfg ++ card11Lines cfg ++ card12Lines cfg

/-- File lines of Cards 12a through 17a and the finalization blank line
(source line 2633), written after float of IPRT returned d. -/
def postLines (cfg : Config) (d : PyDecimal) : List String :=
  card12aFile cfg d ++ card13Lines cfg ++ card13aFile cfg ++ card14Lines cfg ++
  card14aFile cfg ++ card15Lines cfg ++ card16Lines cfg ++ card17Lines cfg ++
  card17aFile cfg ++ [""]

/-- Stdout lines of the encoder, all printed by Cards 2a, 6a and 9a, which
precede the float of IPRT. -/
def encodeStdout (cfg : Config) : List String :=
  card2aOut cfg ++ card6aOut cfg ++ card9aOut cfg

/-- The card encoder of underscore-smartsAll (source lines 2399-2634): the
file lines, the stdout lines, and the exception flag.  When float of IPRT
raises, the file holds exactly the lines written up to Card 12 and the
encoder aborts with an exception. -/
def encodeInp (cfg : Config) : EncodeResult :=
  match pyFloat cfg.IPRT with
  | none => { lines := preLines cfg, stdout := encodeStdout cfg, raised := true }
  | some d =>
    { lines := preLines cfg ++ postLines cfg d, stdout := encodeStdout cfg, raised := false }

/-! ### The call protocol of underscore-smartsAll (source lines 2370-2676) -/

/-- The candidate engine executable names tried in order
(source line 2638). -/
def commands : List String := ["smarts295bat", "smarts295bat.exe"]

/-- Abstract environment of one underscore-smartsAll call: the SMARTSPATH
environment variable (some value when set), the working directory at entry
as returned by getcwd, which file names the existence test accepts in the
engine directory, and whether the read of smarts295.ext.txt succeeds (the
file exists and parses as a table). -/
structure SmartsEnv where
  smartspath : Option String
  startCwd : String
  exeExists : String → Bool
  extReadOk : Bool

/-- The working directory after the optional SMARTSPATH change
(source lines 2378-2380). -/
def engineCwd (env : SmartsEnv) : String :=
  match env.smartspath with
  | some p => p
  | none => env.startCwd

/-- The Python variable original-wd: None when SMARTSPATH is unset,
otherwise the getcwd value recorded before the change
(source lines 2377-2379). -/
def originalWd (env : SmartsEnv) : Option String :=
  match env.smartspath with
  | some _ => some env.startCwd
  | none => none

/-- The final chdir guarded by the Python truthiness of original-wd
(source lines 2673-2674): a None or empty original-wd leaves the current
directory unchanged. -/
def restoreCwd (origWd : Option String) (cur : String) : String :=
  match origWd with
  | some s => if s = "" then cur else s
  | none => cur

/-- Observable outcome of one underscore-smartsAll call: the working
directory when control leaves the function, whether a Python exception
escaped, whether that exception was the read-and-parse failure of
smarts295.ext.txt, whether that read was attempted at all, whether the
function returned normally with data None, the lines written to the input
file, and the stdout lines. -/
structure CallResult where
  finalCwd : String
  raised : Bool
  parseRaised : Bool
  readAttempted : Bool
  returnsNone : Bool
  inpLines : List String
  stdout : List String
deriving DecidableEq, Repr

/-- Model of the whole underscore-smartsAll call (source lines 2370-2676).
After the optional chdir into SMARTSPATH and the best-effort removals, the
encoder runs; an encoder exception escapes at once, with no restore of the
working directory (the source has no try-finally).  Otherwise the candidate
executables are probed in order (source lines 2638-2643); if none exists
the code prints a message, leaves data as None, and reaches the cleanup and
restore (source lines 2645-2647).  If one exists, the engine runs and
read-csv on smarts295.ext.txt either yields the data table or raises; a
raise escapes the function, again skipping cleanup and restore
(source lines 2649-2653). -/
def smartsAll (env : SmartsEnv) (cfg : Config) : CallResult :=
  if (encodeInp cfg).raised then
    { finalCwd := engineCwd env, raised := true, parseRaised := false,
      readAttempted := false, returnsNone := false,
      inpLines := (encodeInp cfg).lines, stdout := (encodeInp cfg).stdout }
  else
    match commands.find? env.exeExists with
    | none =>
      { finalCwd := restoreCwd (originalWd env) (engineCwd env), raised := false,
        parseRaised := false, readAttempted := false, returnsNone := true,
        inpLines := (encodeInp cfg).lines,
        stdout := (encodeInp cfg).stdout ++ ["Could not find SMARTS2 executable."] }
    | some _ =>
      if env.extReadOk then
        { finalCwd := restoreCwd (originalWd env) (engineCwd env), raised := false,
          parseRaised := false, readAttempted := true, returnsNone := false,
          inpLines := (encodeInp cfg).lines, stdout := (encodeInp cfg).stdout }
      else
        { finalCwd := engineCwd env, raised := true, parseRaised := true,
          readAttempted := true, returnsNone := false,
          inpLines := (encodeInp cfg).lines, stdout := (encodeInp cfg).stdout }

/-! ### Concrete configurations and environments used in the theorems -/

/-- A concrete configuration matching the section 8 scenario of the
specification: the fixed option values of SMARTSSpectra (source lines
101-527) with no tilt, material Gravel (code 48), and concrete date, time
and location strings. -/
def baseCfg : Config :=
  { CMNT := "ASTMG173-03 (AM1.5 Standard)", ISPR := "1", SPR := "1013.25",
    ALTIT := "0.358", HEIGHT := "0", LATIT := "33.45", IATMOS := "1",
    ATMOS := "USSA", RH := "", TAIR := "", SEASON := "", TDAY := "",
    IH2O := "1", W := "", IO3 := "1", IALT := "", AbO3 := "", IGAS := "0",
    ILOAD := "1", ApCH2O := "", ApCH4 := "", ApCO := "", ApHNO2 := "",
    ApHNO3 := "", ApNO := "", ApNO2 := "", ApNO3 := "", ApO3 := "",
    ApSO2 := "", qCO2 := "0.0", ISPCTR := "0", AEROS := "S&F_TROPO",
    ALPHA1 := "", ALPHA2 := "", OMEGL := "", GG := "", ITURB := "0",
    TAU5 := "0.00", BETA := "", BCHUEP := "", RANGE := "", VISI := "",
    TAU550 := "", IALBDX := "48", RHOX := "", ITILT := "0", IALBDG := "48",
    TILT := "0.0", WAZIM := "180.0", RHOG := "", WLMN := "280",
    WLMX := "4000", SUNCOR := "1.0", SOLARC := "1367.0", IPRT := "2",
    WPMN := "280", WPMX := "4000", INTVL := ".5", IOUT := "30",
    ICIRC := "0", SLOPE := "", APERT := "", LIMIT := "", ISCAN := "0",
    IFILT := "", WV1 := "", WV2 := "", STEP := "", FWHM := "", ILLUM := "0",
    IUV := "0", IMASS := "3", ZENITH := "", AZIM := "", ELEV := "",
    AMASS := "", YEAR := "2020", MONTH := "6", DAY := "21", HOUR := "12",
    LONGIT := "-111.98", ZONE := "-7", DSTEP := "" }

/-- The section 8 scenario configuration with the given pressure, altitude
and date, time and location fields left symbolic. -/
def scenarioCfg (SPR ALTIT YEAR MONTH DAY HOUR LATIT LONGIT ZONE : String) : Config :=
  { baseCfg with
    SPR := SPR, ALTIT := ALTIT, LATIT := LATIT, YEAR := YEAR,
    MONTH := MONTH, DAY := DAY, HOUR := HOUR, LONGIT := LONGIT, ZONE := ZONE }

/-- A configuration whose IPRT does not parse as a float, making the
encoder raise ValueError at Card 12a. -/
def cfgBadIPRT : Config := { baseCfg with IPRT := "x" }

/-- An environment with SMARTSPATH unset and no engine executable
present. -/
def envNoExe : SmartsEnv :=
  { smartspath := none, startCwd := "/work", exeExists := fun _ => false,
    extReadOk := true }

/-- An environment with SMARTSPATH unset, the engine executable present,
and the read of smarts295.ext.txt failing. -/
def envReadFail : SmartsEnv :=
  { smartspath := none, startCwd := "/work",
    exeExists := fun c => c == "smarts295bat", extReadOk := false }

/-- An environment with SMARTSPATH set and no engine executable present. -/
def envEngineNoExe : SmartsEnv :=
  { smartspath := some ("/engine"), startCwd := "/work",
    exeExists := fun _ => false, extReadOk := true }

/-- An environment with SMARTSPATH set, the engine executable present and
the output file readable. -/
def envEngineOk : SmartsEnv :=
  { smartspath := some ("/engine"), startCwd := "/work",
    exeExists := fun c => c == "smarts295bat", extReadOk := true }

/-- A 63-character comment, one character beyond the truncation
threshold. -/
def cmnt63 : String := String.mk (List.replicate 63 ('a'))

/-- The scenario configuration with the overlong comment. -/
def cfgLongCmnt : Config := { baseCfg with CMNT := cmnt63 }

/-! ### Helper lemmas -/

/-- Quoting a string is injective: equal quoted strings have equal
bodies. -/
theorem pyQuote_inj {a b : String} (h : pyQuote a = pyQuote b) : a = b := by
  have hd := congrArg String.data h
  simp only [pyQuote, sQuote, String.data_append] at hd
  rw [List.append_assoc, List.append_assoc] at hd
  have h2 := List.append_cancel_left hd
  exact String.ext (List.append_cancel_right h2)

/-- The encoder always writes at least one line: Card 1 is unconditional
and precedes every branch. -/
theorem encodeInp_lines_ne_nil (cfg : Config) : (encodeInp cfg).lines ≠ [] := by
  have hpre : preLines cfg ≠ [] := by
    unfold preLines card1Lines
    simp
  unfold encodeInp
  cases pyFloat cfg.IPRT with
  | none => simpa using hpre
  | some d =>
    simp only []
    intro h
    rw [List.append_eq_nil] at h
    exact hpre h.1

/-- A key absent from the key view of an association list has no lookup
value. -/
theorem lookup_eq_none_of_not_mem_keys {l : List (String × String)} {m : String}
    (h : m ∉ l.map Prod.fst) : l.lookup m = none := by
  induction l with
  | nil => rfl
  | cons p t ih =>
    simp only [List.map_cons, List.mem_cons, not_or] at h
    obtain ⟨h1, h2⟩ := h
    have hb : (m == p.1) = false := beq_eq_false_iff_ne.mpr h1
    simp [List.lookup, hb, ih h2]

/-- When float of IPRT parses to d, the encoder returns the full card file
with no exception. -/
theorem encodeInp_some (cfg : Config) (d : PyDecimal) (h : pyFloat cfg.IPRT = some d) :
    encodeInp cfg =
      { lines := preLines cfg ++ postLines cfg d, stdout := encodeStdout cfg,
        raised := false } := by
  unfold encodeInp
  rw [h]

/-- When the starting directory is nonempty, the guarded restore returns to
it, whether or not SMARTSPATH was set. -/
theorem restoreCwd_originalWd (env : SmartsEnv) (hw : env.startCwd ≠ "") :
    restoreCwd (originalWd env) (engineCwd env) = env.startCwd := by
  cases hp : env.smartspath <;> simp [restoreCwd, originalWd, engineCwd, hp, hw]

/-! ### The claims -/

/-- Claim C1: for the section 8 scenario inputs (ISPR 1, IATMOS 1, IH2O 1,
IO3 1, IGAS 0 with ILOAD 1, qCO2 0.0, ISPCTR 0, AEROS the Shettle-Fenn
tropospheric model, ITURB 0 with TAU5 0.00, IALBDX 48 for material Gravel,
ITILT 0, WLMN 280, WLMX 4000, IPRT 2 with INTVL .5 and IOUT 30, ICIRC 0,
ISCAN 0, ILLUM 0, IUV 0, IMASS 3) the encoder writes exactly the card lines
those option values imply, one line per required card and none for skipped
sub-cards, closed by the standard finalization blank line; the Card 10 line
is the literal 48 and the Card 17a line is the seven fields year, month,
day, hour, latitude, longitude, zone joined by single spaces in that
order.  No diagnostics are printed and no exception is raised. -/
theorem C1_scenario_card_file (SPR ALTIT YEAR MONTH DAY HOUR LATIT LONGIT ZONE : String) :
    encodeInp (scenarioCfg SPR ALTIT YEAR MONTH DAY HOUR LATIT LONGIT ZONE) =
      { lines :=
          [pyQuote ("ASTMG173-03_(AM1.5_Standard)"),
           "1",
           SPR ++ " " ++ ALTIT ++ " " ++ "0",
           "1",
           pyQuote ("USSA"),
           "1",
           "1",
           "0",
           "1",
           "0.0",
           "0",
           pyQuote ("S&F_TROPO"),
           "0",
           "0.00",
           "48",
           "0",
           "280 4000 1.0 1367.0",
           "2",
           "280 4000 .5",
           "1",
           "30",
           "0",
           "0",
           "0",
           "0",
           "3",
           YEAR ++ " " ++ MONTH ++ " " ++ DAY ++ " " ++ HOUR ++ " " ++ LATIT ++ " " ++
             LONGIT ++ " " ++ ZONE,
           ""],
        stdout := [],
        raised := false } := by
  have hf : pyFloat ((scenarioCfg SPR ALTIT YEAR MONTH DAY HOUR LATIT LONGIT ZONE).IPRT) =
      some { neg := false, ip := 2, fnum := 0, fpow := 0 } := rfl
  have e01 : card1Lines (scenarioCfg SPR ALTIT YEAR MONTH DAY HOUR LATIT LONGIT ZONE) =
      [pyQuote ("ASTMG173-03_(AM1.5_Standard)")] := rfl
  have e02 : card2Lines (scenarioCfg SPR ALTIT YEAR MONTH DAY HOUR LATIT LONGIT ZONE) =
      ["1"] := rfl
  have e03 : card2aFile (scenarioCfg SPR ALTIT YEAR MONTH DAY HOUR LATIT LONGIT ZONE) =
      [SPR ++ " " ++ ALTIT ++ " " ++ "0"] := rfl
  have e04 : card3Lines (scenarioCfg SPR ALTIT YEAR MONTH DAY HOUR LATIT LONGIT ZONE) =
      ["1"] := rfl
  have e05 : card3aFile (scenarioCfg SPR ALTIT YEAR MONTH DAY HOUR LATIT LONGIT ZONE) =
      [pyQuote ("USSA")] := rfl
  have e06 : card4Lines (scenarioCfg SPR ALTIT YEAR MONTH DAY HOUR LATIT LONGIT ZONE) =
      ["1"] := rfl
  have e07 : card4aFile (scenarioCfg SPR ALTIT YEAR MONTH DAY HOUR LATIT LONGIT ZONE) =
      [] := rfl
  have e08 : card5Lines (scenarioCfg SPR ALTIT YEAR MONTH DAY HOUR LATIT LONGIT ZONE) =
      ["1"] := rfl
  have e09 : card5aFile (scenarioCfg SPR ALTIT YEAR MONTH DAY HOUR LATIT LONGIT ZONE) =
      [] := rfl
  have e10 : card6Lines (scenarioCfg SPR ALTIT YEAR MONTH DAY HOUR LATIT LONGIT ZONE) =
      ["0"] := rfl
  have e11 : card6aFile (scenarioCfg SPR ALTIT YEAR MONTH DAY HOUR LATIT LONGIT ZONE) =
      ["1"] := rfl
  have e12 : card7Lines (scenarioCfg SPR ALTIT YEAR MONTH DAY HOUR LATIT LONGIT ZONE) =
      ["0.0"] := rfl
  have e13 : card7aLines (scenarioCfg SPR ALTIT YEAR MONTH DAY HOUR LATIT LONGIT ZONE) =
      ["0"] := rfl
  have e14 : card8Lines (scenarioCfg SPR ALTIT YEAR MONTH DAY HOUR LATIT LONGIT ZONE) =
      [pyQuote ("S&F_TROPO")] := rfl
  have e15 : card8aFile (scenarioCfg SPR ALTIT YEAR MONTH DAY HOUR LATIT LONGIT ZONE) =
      [] := rfl
  have e16 : card9Lines (scenarioCfg SPR ALTIT YEAR MONTH DAY HOUR LATIT LONGIT ZONE) =
      ["0"] := rfl
  have e17 : card9aFile (scenarioCfg SPR ALTIT YEAR MONTH DAY HOUR LATIT LONGIT ZONE) =
      ["0.00"] := rfl
  have e18 : card10Lines (scenarioCfg SPR ALTIT YEAR MONTH DAY HOUR LATIT LONGIT ZONE) =
      ["48"] := rfl
  have e19 : card10aFile (scenarioCfg SPR ALTIT YEAR MONTH DAY HOUR LATIT LONGIT ZONE) =
      [] := rfl
  have e20 : card10bLines (scenarioCfg SPR ALTIT YEAR MONTH DAY HOUR LATIT LONGIT ZONE) =
      ["0"] := rfl
  have e21 : card10cdFile (scenarioCfg SPR ALTIT YEAR MONTH DAY HOUR LATIT LONGIT ZONE) =
      [] := rfl
  have e22 : card11Lines (scenarioCfg SPR ALTIT YEAR MONTH DAY HOUR LATIT LONGIT ZONE) =
      ["280 4000 1.0 1367.0"] := rfl
  have e23 : card12Lines (scenarioCfg SPR ALTIT YEAR MONTH DAY HOUR LATIT LONGIT ZONE) =
      ["2"] := rfl
  have hio : (scenarioCfg SPR ALTIT YEAR MONTH DAY HOUR LATIT LONGIT ZONE).IOUT =
      "30" := rfl
  have e24 : card12aFile (scenarioCfg SPR ALTIT YEAR MONTH DAY HOUR LATIT LONGIT ZONE)
      { neg := false, ip := 2, fnum := 0, fpow := 0 } = ["280 4000 .5", "1", "30"] := by
    unfold card12aFile
    rw [hio]
    rfl
  have e25 : card13Lines (scenarioCfg SPR ALTIT YEAR MONTH DAY HOUR LATIT LONGIT ZONE) =
      ["0"] := rfl
  have e26 : card13aFile (scenarioCfg SPR ALTIT YEAR MONTH DAY HOUR LATIT LONGIT ZONE) =
      [] := rfl
  have e27 : card14Lines (scenarioCfg SPR ALTIT YEAR MONTH DAY HOUR LATIT LONGIT ZONE) =
      ["0"] := rfl
  have e28 : card14aFile (scenarioCfg SPR ALTIT YEAR MONTH DAY HOUR LATIT LONGIT ZONE) =
      [] := rfl
  have e29 : card15Lines (scenarioCfg SPR ALTIT YEAR MONTH DAY HOUR LATIT LONGIT ZONE) =
      ["0"] := rfl
  have e30 : card16Lines (scenarioCfg SPR ALTIT YEAR MONTH DAY HOUR LATIT LONGIT ZONE) =
      ["0"] := rfl
  have e31 : card17Lines (scenarioCfg SPR ALTIT YEAR MONTH DAY HOUR LATIT LONGIT ZONE) =
      ["3"] := rfl
  have e32 : card17aFile (scenarioCfg SPR ALTIT YEAR MONTH DAY HOUR LATIT LONGIT ZONE) =
      [YEAR ++ " " ++ MONTH ++ " " ++ DAY ++ " " ++ HOUR ++ " " ++ LATIT ++ " " ++
        LONGIT ++ " " ++ ZONE] := rfl
  have es : encodeStdout (scenarioCfg SPR ALTIT YEAR MONTH DAY HOUR LATIT LONGIT ZONE) =
      [] := rfl
  rw [encodeInp_some (scenarioCfg SPR ALTIT YEAR MONTH DAY HOUR LATIT LONGIT ZONE)
    { neg := false, ip := 2, fnum := 0, fpow := 0 } hf]
  unfold preLines postLines
  rw [e01, e02, e03, e04, e05, e06, e07, e08, e09, e10, e11, e12, e13, e14, e15, e16,
    e17, e18, e19, e20, e21, e22, e23, e24, e25, e26, e27, e28, e29, e30, e31, e32, es]
  simp only [List.cons_append, List.nil_append, List.append_assoc]

/-- Claim C2: for every configuration, each conditional sub-card is written
exactly when its selector has the demanding sentinel value and is otherwise
entirely omitted with no blank line in its place: Card 8a exactly when
AEROS is USER, Card 10a exactly when IALBDX is -1, Card 10c exactly when
ITILT is 1, and Card 10d exactly when ITILT is 1 and IALBDG is -1. -/
theorem C2_conditional_subcards (cfg : Config) :
    card8aFile cfg =
      (if cfg.AEROS = "USER" then
        [cfg.ALPHA1 ++ " " ++ cfg.ALPHA2 ++ " " ++ cfg.OMEGL ++ " " ++ cfg.GG]
      else [])
  ∧ card10aFile cfg = (if cfg.IALBDX = "-1" then [cfg.RHOX] else [])
  ∧ card10cdFile cfg =
      (if cfg.ITILT = "1" then [cfg.IALBDG ++ " " ++ cfg.TILT ++ " " ++ cfg.WAZIM] else []) ++
      (if cfg.ITILT = "1" ∧ cfg.IALBDG = "-1" then [cfg.RHOG] else []) := by
  refine ⟨?_, rfl, ?_⟩
  · by_cases h : cfg.AEROS = "USER"
    · simp [card8aFile, h]
    · have h2 : pyQuote cfg.AEROS ≠ pyQuote ("USER") := fun hq => h (pyQuote_inj hq)
      simp [card8aFile, h, h2]
  · by_cases h1 : cfg.ITILT = "1" <;> by_cases h2 : cfg.IALBDG = "-1" <;>
      simp [card10cdFile, h1, h2]

/-- Claim C3: the material resolver maps every documented material name to
its documented code string, and called with None it returns the full key
list with nothing printed (and, being a pure lookup, no engine
invocation). -/
theorem C3_material_resolver_total :
    materialToCode none = (MatRet.names materialKeys, [])
  ∧ ∀ p ∈ materialMap, materialToCode (some p.1) = (MatRet.code p.2, []) := by
  refine ⟨rfl, ?_⟩
  decide

/-- Witness for claim C3 at the documented pair Gravel, 48. -/
theorem C3_material_resolver_total_witness :
    materialToCode (some ("Gravel")) = (MatRet.code ("48"), []) :=
  C3_material_resolver_total.2 (("Gravel"), ("48")) (by decide)

/-- Claim C10: the material resolver treats the empty string exactly like
None, returning the full key list rather than an unknown-material
diagnostic, because the Python code tests string truthiness. -/
theorem C10_empty_string_material :
    materialToCode (some ("")) = materialToCode none
  ∧ materialToCode (some ("")) = (MatRet.names materialKeys, []) := by
  exact ⟨rfl, rfl⟩

/-- Counterexample for claim C4: at the concrete unknown name Vibranium the
resolver does not fail; it prints the diagnostic and returns None. -/
theorem C4_unknown_material_counterexample :
    ("Vibranium" ∉ materialKeys)
  ∧ materialToCode (some ("Vibranium")) =
      (MatRet.noneRet,
       ["Unknown material specified: " ++ sQuote ++ "Vibranium" ++ sQuote]) := by
  decide

/-- Claim C4 as amended: for every nonempty input string outside the
documented material names, the resolver prints the diagnostic line naming
the offending string and returns None; no error condition is raised. -/
theorem C4_unknown_material_amended (m : String) (h1 : m ≠ "")
    (h2 : m ∉ materialKeys) :
    materialToCode (some m) =
      (MatRet.noneRet, ["Unknown material specified: " ++ sQuote ++ m ++ sQuote]) := by
  have hl : materialMap.lookup m = none := lookup_eq_none_of_not_mem_keys h2
  have he : materialToCode (some m) =
      (if m = "" then (MatRet.names materialKeys, [])
       else
         match materialMap.lookup m with
         | none => (MatRet.noneRet, ["Unknown material specified: " ++ sQuote ++ m ++ sQuote])
         | some c => (MatRet.code c, [])) := rfl
  rw [he, if_neg h1, hl]

/-- Witness for the amended claim C4 at the concrete name Unobtainium. -/
theorem C4_unknown_material_amended_witness :
    materialToCode (some ("Unobtainium")) =
      (MatRet.noneRet,
       ["Unknown material specified: " ++ sQuote ++ "Unobtainium" ++ sQuote]) :=
  C4_unknown_material_amended ("Unobtainium") (by decide) (by decide)

/-- Counterexample for claim C6: in the concrete environment where no
candidate executable exists, the call does not fail: it returns normally
with data None after printing the message, though it indeed never reads the
output file. -/
theorem C6_engine_not_found_counterexample :
    (smartsAll envNoExe baseCfg).raised = false
  ∧ (smartsAll envNoExe baseCfg).returnsNone = true
  ∧ (smartsAll envNoExe baseCfg).readAttempted = false
  ∧ ("Could not find SMARTS2 executable.") ∈ (smartsAll envNoExe baseCfg).stdout := by
  decide

/-- Claim C6 as amended: whenever neither candidate executable exists and
the encoder did not raise, the call prints the could-not-find message,
returns None without raising, and never reads the output file. -/
theorem C6_engine_not_found_amended (env : SmartsEnv) (cfg : Config)
    (henc : (encodeInp cfg).raised = false)
    (h1 : env.exeExists ("smarts295bat") = false)
    (h2 : env.exeExists ("smarts295bat.exe") = false) :
    (smartsAll env cfg).raised = false
  ∧ (smartsAll env cfg).returnsNone = true
  ∧ (smartsAll env cfg).readAttempted = false
  ∧ ("Could not find SMARTS2 executable.") ∈ (smartsAll env cfg).stdout := by
  have hf : commands.find? env.exeExists = none := by
    simp [commands, List.find?, h1, h2]
  simp [smartsAll, henc, hf]

/-- Witness for the amended claim C6 in the concrete no-executable
environment. -/
theorem C6_engine_not_found_amended_witness :
    (smartsAll envNoExe baseCfg).raised = false
  ∧ (smartsAll envNoExe baseCfg).returnsNone = true
  ∧ (smartsAll envNoExe baseCfg).readAttempted = false
  ∧ ("Could not find SMARTS2 executable.") ∈ (smartsAll envNoExe baseCfg).stdout :=
  C6_engine_not_found_amended envNoExe baseCfg (by decide) rfl rfl

/-- Counterexample for claim C7: in the concrete environment where the
engine exists but the output file read fails, the parse exception escapes
to the caller uninterpreted, and no no-output-produced condition or message
is produced anywhere. -/
theorem C7_no_output_counterexample :
    (smartsAll envReadFail baseCfg).parseRaised = true
  ∧ (smartsAll envReadFail baseCfg).raised = true
  ∧ (smartsAll envReadFail baseCfg).stdout = [] := by
  decide

/-- Claim C7 as amended: whenever the encoder did not raise, some candidate
executable exists, and the read of the output file fails, the read is
attempted and the parse exception propagates uninterpreted out of the
call. -/
theorem C7_no_output_amended (env : SmartsEnv) (cfg : Config)
    (henc : (encodeInp cfg).raised = false)
    (hcmd : (commands.find? env.exeExists).isSome = true)
    (hread : env.extReadOk = false) :
    (smartsAll env cfg).parseRaised = true
  ∧ (smartsAll env cfg).raised = true
  ∧ (smartsAll env cfg).readAttempted = true := by
  cases hfind : commands.find? env.exeExists with
  | none => rw [hfind] at hcmd; simp at hcmd
  | some c => simp [smartsAll, henc, hfind, hread]

/-- Witness for the amended claim C7 in the concrete failing-read
environment. -/
theorem C7_no_output_amended_witness :
    (smartsAll envReadFail baseCfg).parseRaised = true
  ∧ (smartsAll envReadFail baseCfg).raised = true
  ∧ (smartsAll envReadFail baseCfg).readAttempted = true :=
  C7_no_output_amended envReadFail baseCfg (by decide) (by decide) rfl

/-- Counterexample for claim C8: in the concrete environment with
SMARTSPATH set, when the encoder raises (IPRT does not parse as a float)
the call leaves the process in the engine directory instead of restoring
the starting directory. -/
theorem C8_cwd_restore_counterexample :
    envEngineNoExe.smartspath = some ("/engine")
  ∧ (smartsAll envEngineNoExe cfgBadIPRT).raised = true
  ∧ (smartsAll envEngineNoExe cfgBadIPRT).finalCwd = "/engine"
  ∧ ¬ (smartsAll envEngineNoExe cfgBadIPRT).finalCwd = envEngineNoExe.startCwd := by
  decide

/-- Claim C8 as amended: the starting working directory is restored exactly
on the non-exceptional exit paths: whenever no exception escapes the call
and the starting directory is nonempty, the final working directory is the
starting one; the exceptional paths (encoder ValueError, output parse
failure) instead leave the process in the engine directory. -/
theorem C8_cwd_restore_amended (env : SmartsEnv) (cfg : Config)
    (h : (smartsAll env cfg).raised = false) (hw : env.startCwd ≠ "") :
    (smartsAll env cfg).finalCwd = env.startCwd := by
  cases henc : (encodeInp cfg).raised with
  | true => simp [smartsAll, henc] at h
  | false =>
    cases hfind : commands.find? env.exeExists with
    | none => simp [smartsAll, henc, hfind, restoreCwd_originalWd env hw]
    | some c =>
      cases hread : env.extReadOk with
      | true => simp [smartsAll, henc, hfind, hread, restoreCwd_originalWd env hw]
      | false => simp [smartsAll, henc, hfind, hread] at h

/-- Witness for the amended claim C8 in the concrete environment with
SMARTSPATH set, the engine present and the output file readable. -/
theorem C8_cwd_restore_amended_witness :
    (smartsAll envEngineOk baseCfg).finalCwd = envEngineOk.startCwd :=
  C8_cwd_restore_amended envEngineOk baseCfg (by decide) (by decide)

/-- Counterexample for claim C9: at the concrete 63-character comment the
Card 1 line is the quoted first 61 characters, not the quoted first 62
characters the claim prescribes. -/
theorem C9_comment_truncation_counterexample :
    62 < cfgLongCmnt.CMNT.length
  ∧ card1Lines cfgLongCmnt ≠ [pyQuote (pyReplaceSpace (pyTake 62 cfgLongCmnt.CMNT))]
  ∧ card1Lines cfgLongCmnt = [pyQuote (pyReplaceSpace (pyTake 61 cfgLongCmnt.CMNT))] := by
  decide

/-- Claim C9 as amended: for every comment, Card 1 is one line consisting
of a single quote, the comment truncated to its first 61 characters when
longer than 62 characters (and kept whole otherwise, so a 62-character
comment passes through untruncated), with every space replaced by an
underscore, and a closing single quote; the line never exceeds 64
characters. -/
theorem C9_comment_normalization_amended (cfg : Config) :
    (card1Lines cfg).map String.data =
      [[('\'')] ++
        ((if 62 < cfg.CMNT.length then cfg.CMNT.data.take 61 else cfg.CMNT.data).map
          (fun ch => if ch = (' ') then ('_') else ch)) ++ [('\'')]]
  ∧ ((card1Lines cfg).headD ("")).length ≤ 64 := by
  have hdata : ∀ s : String, (pyQuote s).data = ('\'') :: s.data ++ [('\'')] := by
    intro s
    show (sQuote ++ s ++ sQuote).data = _
    rw [String.data_append, String.data_append]
    rfl
  have hone : card1Lines cfg =
      [pyQuote (pyReplaceSpace (if 62 < cfg.CMNT.length then pyTake 61 cfg.CMNT
        else cfg.CMNT))] := rfl
  constructor
  · rw [hone, List.map_cons, List.map_nil, hdata]
    by_cases h : 62 < cfg.CMNT.length
    · rw [if_pos h, if_pos h]
      rfl
    · rw [if_neg h, if_neg h]
      rfl
  · have hlen : ∀ s : String, (pyQuote (pyReplaceSpace s)).length = s.data.length + 2 := by
      intro s
      have h1 : (pyQuote (pyReplaceSpace s)).length = (pyQuote (pyReplaceSpace s)).data.length :=
        (String.length_data _).symm
      rw [h1, hdata]
      simp [pyReplaceSpace]
    rw [hone]
    show (pyQuote (pyReplaceSpace (if 62 < cfg.CMNT.length then pyTake 61 cfg.CMNT
      else cfg.CMNT))).length ≤ 64
    rw [hlen]
    by_cases h : 62 < cfg.CMNT.length
    · rw [if_pos h]
      show (cfg.CMNT.data.take 61).length + 2 ≤ 64
      have hm := List.length_take_le 61 cfg.CMNT.data
      omega
    · rw [if_neg h]
      rw [String.length_data]
      omega
